import Mathlib

/-!
Verification development for the config-section store implemented in
src/scenario_manager.py (class ScenarioManager).  The Python functions are
shallowly embedded as Lean functions: Python dicts become association lists
(in insertion order), Python values that may be non-strings become the
PyVal type, and the fragments of the CPython platform the store relies on
(the ast module and the filesystem) are modelled explicitly where needed.
-/

/-- Model of a Python runtime value as it can occur inside the
SYSTEM_PROMPT_PAIRS section: a string, an int, or a string-keyed dict
(insertion ordered).  Keys are strings because the section format only
uses quoted-string keys. -/
inductive PyVal where
  | str (s : String)
  | int (n : Int)
  | dict (entries : List (String × PyVal))

/-- Fixed host path constant of ScenarioManager. -/
def CONFIG_PATH : String := "config.py"

/-- Required AI slots for each scenario (class attribute REQUIRED_SLOTS). -/
def REQUIRED_SLOTS : List String := ["AI-1", "AI-2", "AI-3", "AI-4", "AI-5"]

/-- The single-quote character, written via its code point. -/
def aposC : Char := Char.ofNat 39

/-- The single-quote character as a one-character string. -/
def aposS : String := String.mk [aposC]

/-- Whitespace characters stripped by Python str.strip(). -/
def isPyStripSpace (c : Char) : Bool :=
  c = ' ' ∨ c = '\t' ∨ c = '\n' ∨ c = '\r' ∨ c = '\x0b' ∨ c = '\x0c'

/-- Model of Python str.strip(): drop leading and trailing whitespace. -/
def pyStrip (s : String) : String :=
  String.mk (((s.data.dropWhile isPyStripSpace).reverse.dropWhile isPyStripSpace).reverse)

/-- Model of the Python test `c in s` for a single character c. -/
def containsChar (s : String) (c : Char) : Bool :=
  s.data.contains c

/-- Model of type(v).__name__ for the modelled value types. -/
def typeName : PyVal → String
  | .str _ => "str"
  | .int _ => "int"
  | .dict _ => "dict"

/-- Dict key membership (the Python test `slot not in prompts`, negated). -/
def keyMem (k : String) (l : List (String × PyVal)) : Bool :=
  l.any (fun e => e.1 == k)

/-- First entry of the dict whose value is not a string, in insertion
order; models the early return of the value type check loop. -/
def firstNonStr : List (String × PyVal) → Option (String × PyVal)
  | [] => none
  | (slot, v) :: rest =>
    match v with
    | .str _ => firstNonStr rest
    | _ => some (slot, v)

/-- Model of str.join over a separator. -/
def joinSep (sep : String) : List String → String
  | [] => ""
  | [x] => x
  | x :: xs => x ++ sep ++ joinSep sep xs

/-- ScenarioManager.validate_scenario: validates one scenario before
saving, returning (is_valid, error_message). -/
def validate_scenario (name : String) (prompts : PyVal) : Bool × Option String :=
  if name = "" ∨ pyStrip name = "" then
    (false, some "Scenario name cannot be empty")
  else if containsChar name '"' ∧ containsChar name aposC then
    (false, some "Scenario name cannot contain both single and double quotes")
  else
    match prompts with
    | .dict entries =>
      let missing_slots := REQUIRED_SLOTS.filter (fun slot => ¬ keyMem slot entries)
      if missing_slots ≠ [] then
        (false, some ("Missing required AI slots: " ++ joinSep ", " missing_slots))
      else
        match firstNonStr entries with
        | some (slot, prompt) =>
          (false, some ("Prompt for " ++ slot ++ " must be a string, got " ++ typeName prompt))
        | none => (true, none)
    | _ => (false, some "Prompts must be a dictionary")

/-- Per-scenario validation loop of validate_all_scenarios: returns on the
first invalid scenario, wrapping its message. -/
def firstInvalid : List (String × PyVal) → Bool × Option String
  | [] => (true, none)
  | (name, prompts) :: rest =>
    let r := validate_scenario name prompts
    if r.1 then firstInvalid rest
    else (false, some ("Scenario " ++ aposS ++ name ++ aposS ++ ": " ++ r.2.getD "None"))

/-- ScenarioManager.validate_all_scenarios: non-empty check, duplicate
name check (len(names) == len(set(names))), then per-scenario checks in
order, short-circuiting on the first failure. -/
def validate_all_scenarios (scenarios : List (String × PyVal)) : Bool × Option String :=
  if scenarios.isEmpty then
    (false, some "Must have at least one scenario")
  else
    let names := scenarios.map (·.1)
    if names.length ≠ names.dedup.length then
      (false, some "Duplicate scenario names found")
    else
      firstInvalid scenarios

/-- Lift a string-valued slot map to the PyVal world. -/
def slotMapToPy (m : List (String × String)) : PyVal :=
  .dict (m.map (fun p => (p.1, .str p.2)))

/-- Lift a string-valued scenario collection to the PyVal world. -/
def collToPy (c : List (String × List (String × String))) : List (String × PyVal) :=
  c.map (fun p => (p.1, slotMapToPy p.2))

/-! ## Serializer (ScenarioManager.generate_config_content, lines 228-277) -/

/-- Model of Python str.replace on character lists: left-to-right,
non-overlapping replacement of every occurrence of pat (non-empty).  The
fuel argument only bounds the recursion; one unit per consumed character
is always enough. -/
def replaceFuel (pat rep : List Char) : Nat → List Char → List Char
  | _, [] => []
  | 0, s => s
  | fuel + 1, c :: rest =>
    if pat ≠ [] ∧ pat.isPrefixOf (c :: rest) then
      rep ++ replaceFuel pat rep fuel ((c :: rest).drop pat.length)
    else
      c :: replaceFuel pat rep fuel rest

/-- Model of Python str.replace on strings. -/
def strReplace (s pat rep : String) : String :=
  String.mk (replaceFuel pat.data rep.data s.data.length s.data)

/-- Model of Python str.endswith. -/
def strEndsWith (s suffix : String) : Bool :=
  suffix.data.isSuffixOf s.data

/-- Model of Python slicing s[:-n]. -/
def strDropRight (s : String) (n : Nat) : String :=
  String.mk (s.data.take (s.data.length - n))

/-- The escaping performed on each prompt before it is emitted inside a
triple-quoted string: double every backslash, put a backslash before each
run of three double quotes, and patch a trailing quote or trailing pair of
quotes (source lines 248-260). -/
def escape_prompt (prompt_text : String) : String :=
  let escaped := strReplace (strReplace prompt_text "\\" "\\\\") "\"\"\"" "\\\"\"\""
  if strEndsWith escaped "\"" then
    strDropRight escaped 1 ++ "\\\""
  else if strEndsWith escaped "\"\"" then
    strDropRight escaped 2 ++ "\"\\\""
  else
    escaped

/-- Quote style chosen for a scenario name (source lines 237-240). -/
def name_quote (scenario_name : String) : String :=
  if containsChar scenario_name '"' then aposS else "\""

/-- One emitted slot line: `"slot": """escaped""",` (source line 262). -/
def slotLine (prompts : List (String × String)) (slot : String) : String :=
  "        \"" ++ slot ++ "\": \"\"\"" ++
    escape_prompt ((List.lookup slot prompts).getD "") ++ "\"\"\","

/-- The slot lines of one scenario, with the blank spacer line after every
slot except the last required slot (source lines 245-266). -/
def slotBlock (prompts : List (String × String)) : List String :=
  (REQUIRED_SLOTS.map
    (fun slot =>
      [slotLine prompts slot] ++
        (if slot ≠ REQUIRED_SLOTS.getLastD "" then ["        "] else []))).flatten

/-- All emitted lines of one scenario; islast tells whether it is the last
scenario of the sorted collection (source lines 235-273). -/
def scenarioBlock (islast : Bool) (sc : String × List (String × String)) : List String :=
  let q := name_quote sc.1
  ("    " ++ q ++ sc.1 ++ q ++ ": \x7b") ::
    slotBlock sc.2 ++ (if islast then ["    \x7d"] else ["    \x7d,", "    "])

/-- The scenario loop with its last-index test (enumerate plus
`idx < len(sorted_scenarios) - 1`). -/
def blocksWithLast : List (String × List (String × String)) → List String
  | [] => []
  | [sc] => scenarioBlock true sc
  | sc :: rest => scenarioBlock false sc ++ blocksWithLast rest

/-- Lexicographic comparison of character lists by code point, the order
Python uses to compare strings. -/
def leL : List Char → List Char → Bool
  | [], _ => true
  | _ :: _, [] => false
  | a :: as, b :: bs =>
    if a < b then true
    else if b < a then false
    else leL as bs

/-- Python string comparison (code point lexicographic). -/
def leS (a b : String) : Bool := leL a.data b.data

/-- Model of `sorted(scenarios.items())`: a stable sort of the items by
scenario name (names are unique whenever this runs, so the dict values are
never compared). -/
def sortScenarios (scenarios : List (String × List (String × String))) :
    List (String × List (String × String)) :=
  List.insertionSort (fun a b => leS a.1 b.1 = true) scenarios

/-- The fixed comment line emitted at the top of the section. -/
def headerComment : String :=
  "    # this is a basic system prompt for a conversation between two AIs. Experiment with different prompts to see how they affect the conversation. Add new prompts to the library to use them in the GUI."

/-- All lines of the regenerated SYSTEM_PROMPT_PAIRS section
(source lines 228-275). -/
def generate_dict_lines (scenarios : List (String × List (String × String))) : List String :=
  ["SYSTEM_PROMPT_PAIRS = \x7b", headerComment, "    "] ++
    blocksWithLast (sortScenarios scenarios) ++ ["\x7d"]

/-- Model of "newline".join(lines). -/
def joinLines : List String → String
  | [] => ""
  | [l] => l
  | l :: ls => l ++ "\n" ++ joinLines ls

/-- The regenerated section text new_dict_content (source line 277). -/
def new_dict_content (scenarios : List (String × List (String × String))) : String :=
  joinLines (generate_dict_lines scenarios)

/-- The value part of the regenerated section, i.e. the text starting at
the opening brace.  This is the slice the loader extracts via the AST
column offsets (the value of the binding starts at column 22 of its first
line, right after the text SYSTEM_PROMPT_PAIRS and the equals sign). -/
def dict_text (scenarios : List (String × List (String × String))) : String :=
  String.mk ((new_dict_content scenarios).data.drop 22)

/-! ## Modelled literal reader

load_scenarios hands the extracted value text to ast.literal_eval
(source line 82).  The following functions model, on character lists, the
fragment of the CPython literal grammar that the section format uses: a
brace-delimited mapping from quoted-string keys to brace-delimited
mappings from quoted-string keys to quoted-string values (section 4.1 of
the spec: this is the only shape the store ever needs to read).  String
literals follow the CPython lexer: short and long (triple-quoted) strings
over either quote character, backslash escapes, long strings closing at
the first unescaped run of three quote characters, and implicit
concatenation of adjacent string literals.  Escapes outside the set used
by the serializer (backslash, both quotes, n, t, r, backslash-newline) are
kept verbatim. -/

/-- Decoded characters produced by a backslash escape. -/
def decodeEsc (c : Char) : List Char :=
  if c = '\\' then ['\\']
  else if c = '"' then ['"']
  else if c = aposC then [aposC]
  else if c = 'n' then ['\n']
  else if c = 't' then ['\t']
  else if c = 'r' then ['\r']
  else if c = '\n' then []
  else ['\\', c]

/-- Scan the body of a long (triple-quoted) string with quote character q,
returning the decoded body and the text after the closing delimiter. -/
def scanLong (q : Char) : Nat → List Char → Option (List Char × List Char)
  | 0, _ => none
  | _ + 1, [] => none
  | fuel + 1, c :: cs =>
    if c = q ∧ cs.head? = some q ∧ (cs.drop 1).head? = some q then
      some ([], cs.drop 2)
    else if c = '\\' then
      match cs with
      | [] => none
      | e :: cs2 => (scanLong q fuel cs2).map (fun r => (decodeEsc e ++ r.1, r.2))
    else
      (scanLong q fuel cs).map (fun r => (c :: r.1, r.2))

/-- Scan the body of a short string with quote character q; a raw newline
ends the line and is a lexical error. -/
def scanShort (q : Char) : Nat → List Char → Option (List Char × List Char)
  | 0, _ => none
  | _ + 1, [] => none
  | fuel + 1, c :: cs =>
    if c = q then some ([], cs)
    else if c = '\n' then none
    else if c = '\\' then
      match cs with
      | [] => none
      | e :: cs2 => (scanShort q fuel cs2).map (fun r => (decodeEsc e ++ r.1, r.2))
    else
      (scanShort q fuel cs).map (fun r => (c :: r.1, r.2))

/-- One string literal: a long string when the next three characters are
the same quote (maximal munch), otherwise a short string. -/
def parseStrAtom (fuel : Nat) (cs : List Char) : Option (List Char × List Char) :=
  match cs with
  | c :: rest =>
    if c = '"' ∨ c = aposC then
      match rest with
      | c2 :: c3 :: rest2 =>
        if c2 = c ∧ c3 = c then scanLong c fuel rest2 else scanShort c fuel rest
      | _ => scanShort c fuel rest
    else none
  | [] => none

/-- Skip a comment up to, but not including, the line-ending newline. -/
def dropCommentLine : List Char → List Char
  | [] => []
  | c :: cs => if c = '\n' then c :: cs else dropCommentLine cs

/-- Characters the tokenizer skips between tokens inside brackets. -/
def isPyWs (c : Char) : Bool :=
  c = ' ' ∨ c = '\t' ∨ c = '\r' ∨ c = '\n'

/-- Skip whitespace and comments between tokens. -/
def skipWsL : Nat → List Char → List Char
  | 0, cs => cs
  | _ + 1, [] => []
  | fuel + 1, c :: cs =>
    if isPyWs c then skipWsL fuel cs
    else if c = '#' then skipWsL fuel (dropCommentLine cs)
    else c :: cs

/-- A string expression: one or more adjacent string literals, implicitly
concatenated as CPython does. -/
def parseStrCat : Nat → List Char → Option (List Char × List Char)
  | 0, _ => none
  | fuel + 1, cs =>
    match parseStrAtom fuel cs with
    | none => none
    | some (s, rest) =>
      let rest2 := skipWsL fuel rest
      match rest2 with
      | c :: _ =>
        if c = '"' ∨ c = aposC then
          match parseStrCat fuel rest2 with
          | some (s2, rest3) => some (s ++ s2, rest3)
          | none => none
        else some (s, rest2)
      | [] => some (s, rest2)

/-- Entries of the inner mapping (string to string), parsed from just
after the opening brace to just after the closing brace. -/
def parseInnerEntries : Nat → List Char → Option (List (String × String) × List Char)
  | 0, _ => none
  | fuel + 1, cs =>
    match skipWsL fuel cs with
    | [] => none
    | c :: rest =>
      if c = '\x7d' then some ([], rest)
      else
        match parseStrCat fuel (c :: rest) with
        | none => none
        | some (k, r1) =>
          match skipWsL fuel r1 with
          | ':' :: r3 =>
            match parseStrCat fuel (skipWsL fuel r3) with
            | none => none
            | some (v, r4) =>
              match skipWsL fuel r4 with
              | ',' :: r6 =>
                (parseInnerEntries fuel r6).map
                  (fun p => ((String.mk k, String.mk v) :: p.1, p.2))
              | c2 :: r7 =>
                if c2 = '\x7d' then some ([(String.mk k, String.mk v)], r7) else none
              | [] => none
          | _ => none

/-- Entries of the outer mapping (string to inner mapping), parsed from
just after the opening brace to just after the closing brace. -/
def parseTopEntries :
    Nat → List Char → Option (List (String × List (String × String)) × List Char)
  | 0, _ => none
  | fuel + 1, cs =>
    match skipWsL fuel cs with
    | [] => none
    | c :: rest =>
      if c = '\x7d' then some ([], rest)
      else
        match parseStrCat fuel (c :: rest) with
        | none => none
        | some (k, r1) =>
          match skipWsL fuel r1 with
          | ':' :: r3 =>
            match skipWsL fuel r3 with
            | '\x7b' :: r4 =>
              match parseInnerEntries fuel r4 with
              | none => none
              | some (inner, r5) =>
                match skipWsL fuel r5 with
                | ',' :: r6 =>
                  (parseTopEntries fuel r6).map
                    (fun p => ((String.mk k, inner) :: p.1, p.2))
                | c2 :: r7 =>
                  if c2 = '\x7d' then some ([(String.mk k, inner)], r7) else none
                | [] => none
            | _ => none
          | _ => none

/-- Modelled ast.literal_eval of a mapping-of-mappings-of-strings literal:
the whole input must be one such literal, up to surrounding whitespace and
comments. -/
def parseColl (s : String) : Option (List (String × List (String × String))) :=
  let fuel := 4 * s.data.length + 64
  match skipWsL fuel s.data with
  | '\x7b' :: rest =>
    match parseTopEntries fuel rest with
    | some (entries, r) =>
      match skipWsL fuel r with
      | [] => some entries
      | _ => none
    | none => none
  | _ => none

/-- Serialize then reread: the composition the round-trip properties are
about (generate_config_content writes dict_text into the host document and
load_scenarios immediately reads it back with literal_eval). -/
def reload (scenarios : List (String × List (String × String))) :
    Option (List (String × List (String × String))) :=
  parseColl (dict_text scenarios)

/-! ## Section splice (ScenarioManager.generate_config_content, lines 190-283) -/

/-- Model of content.split on the newline character. -/
def splitNL : List Char → List (List Char)
  | [] => [[]]
  | c :: cs =>
    if c = '\n' then [] :: splitNL cs
    else
      match splitNL cs with
      | l :: ls => (c :: l) :: ls
      | [] => [[c]]

/-- Sum of len(line) + 1 over a list of lines, the way the source converts
line numbers to character positions (lines 217 and 220). -/
def sumLens (ls : List (List Char)) : Nat :=
  (ls.map (fun l => l.length + 1)).sum

/-- ScenarioManager.generate_config_content: regenerate the host document
with an updated section.  The loc argument models the result of the AST
search (lines 205-222): the line of the SYSTEM_PROMPT_PAIRS target name
and the end line of the whole assignment, as reported by ast.parse for the
first such assignment, or none when the document has no such assignment.
The character positions and the splice are computed exactly as in the
source: the replaced region runs from the start of the assignment's first
line to the end of its last line including that line's newline. -/
def generate_config_content (original_content : String) (loc : Option (Nat × Nat))
    (scenarios : List (String × List (String × String))) : Except String String :=
  match loc with
  | none => .error "Could not locate SYSTEM_PROMPT_PAIRS in config.py"
  | some (start_line, end_line) =>
    let lines := splitNL original_content.data
    let start_idx := sumLens (lines.take (start_line - 1))
    let end_idx := sumLens (lines.take end_line)
    let before := original_content.data.take start_idx
    let after := original_content.data.drop end_idx
    .ok (String.mk (before ++ (new_dict_content scenarios).data ++ after))

/-! ## Loader (ScenarioManager.load_scenarios, lines 28-91)

The host document is modelled as the outcome of ast.parse: a syntax error,
or the list of top-level statements in source order.  An assignment
statement carries the outcome of ast.literal_eval on its extracted value
text.  ast.walk visits the top-level statements of a module in source
order before any nested node, and the document format of the store only
has top-level bindings (spec section 4.1), so the loader's scan is a
first-match search over that list. -/

/-- Outcome of ast.literal_eval on the value text of an assignment. -/
inductive LitOutcome where
  | ok (v : PyVal)
  | fail (msg : String)

/-- A top-level statement: an assignment of a literal to a single name, or
any other statement. -/
inductive PyStmt where
  | assign (name : String) (value : LitOutcome)
  | other

/-- Outcome of ast.parse on the host document text. -/
inductive DocParse where
  | syntaxError (msg : String)
  | parsed (stmts : List PyStmt)

/-- Does this statement bind the given name? -/
def isAssignTo (name : String) : PyStmt → Bool
  | .assign n _ => n == name
  | .other => false

/-- The loop over ast.walk (lines 53-89): the first assignment whose
target is the given name wins; later bindings are never reached. -/
def findBinding (name : String) : List PyStmt → Option LitOutcome
  | [] => none
  | .assign n v :: rest => if n == name then some v else findBinding name rest
  | .other :: rest => findBinding name rest

/-- The two exception types load_scenarios raises, with their messages. -/
inductive LoadErr where
  | fileNotFoundError (msg : String)
  | valueError (msg : String)

/-- ScenarioManager.load_scenarios.  The argument is none when the host
path does not exist, otherwise the parse outcome of the file's text. -/
def load_scenarios (file : Option DocParse) : Except LoadErr (List (String × PyVal)) :=
  match file with
  | none => .error (.fileNotFoundError (CONFIG_PATH ++ " not found"))
  | some (.syntaxError e) => .error (.valueError ("config.py has syntax errors: " ++ e))
  | some (.parsed stmts) =>
    match findBinding "SYSTEM_PROMPT_PAIRS" stmts with
    | some (.fail e) =>
      .error (.valueError ("Failed to parse SYSTEM_PROMPT_PAIRS value: " ++ e))
    | some (.ok v) =>
      match v with
      | .dict entries => .ok entries
      | _ => .error (.valueError "SYSTEM_PROMPT_PAIRS is not a dictionary")
    | none => .error (.valueError "SYSTEM_PROMPT_PAIRS not found in config.py")

/-! ## Backup and atomic writer (ScenarioManager.save_scenarios, lines 285-336)

The filesystem is modelled as a mapping from path to file contents.  A
SaveFault value injects at most one exception into the body of the save's
try block, standing for the OS errors the corresponding library call can
raise (shutil.copy2, the temp-file write, the temp-file reopen or its
ast.parse, os.replace); the source's `except Exception` handler converts
any of them into a (False, message) return value.  The success or failure
of ast.parse on generated text is abstracted by the parse_ok argument,
used exactly where the source calls ast.parse (the pre-write check on the
new content and the post-write self-check on the temp file's bytes). -/

/-- A path-to-contents store. -/
abbrev FS := List (String × String)

/-- Contents at a path, if the file exists. -/
def fsGet (fs : FS) (p : String) : Option String := List.lookup p fs

/-- Delete a path. -/
def fsRemovePath (fs : FS) (p : String) : FS := fs.filter (fun e => e.1 != p)

/-- Create or overwrite a path. -/
def fsSet (fs : FS) (p : String) (v : String) : FS := (p, v) :: fsRemovePath fs p

/-- The temporary path used by the atomic write (line 317). -/
def TEMP_PATH : String := CONFIG_PATH ++ ".tmp"

/-- The timestamped backup path (line 170). -/
def backup_path (timestamp : String) : String := CONFIG_PATH ++ ".backup-" ++ timestamp

/-- At most one injected exception in the save path. -/
inductive SaveFault where
  | noFault
  | atBackupCopy (msg : String)
  | atTempWrite (msg : String)
  | atSelfCheck (msg : String)
  | atReplace (msg : String)

/-- ScenarioManager.create_backup: copy the current host file to the
timestamped backup path; raises when the host file is missing or when the
copy itself fails. -/
def create_backup (fs : FS) (timestamp : String) (fault : SaveFault) : Except String FS :=
  match fsGet fs CONFIG_PATH with
  | none => .error (CONFIG_PATH ++ " not found")
  | some content =>
    match fault with
    | .atBackupCopy m => .error m
    | _ => .ok (fsSet fs (backup_path timestamp) content)

/-- Result of the try body of save_scenarios: either an explicit return,
or an exception propagating to the except handler. -/
inductive StepOutcome where
  | ret (r : Bool × Option String) (fs : FS)
  | exn (msg : String) (fs : FS)

/-- The try block of save_scenarios (lines 302-333), step by step:
backup, regenerate content, pre-write parse check, temp write, post-write
self-check (deleting the temp file on failure), atomic replace. -/
def save_try_body (fs : FS) (loc : Option (Nat × Nat)) (timestamp : String)
    (parse_ok : String → Bool) (fault : SaveFault)
    (scenarios : List (String × List (String × String))) (create_bk : Bool) : StepOutcome :=
  match (if create_bk then create_backup fs timestamp fault else .ok fs :
      Except String FS) with
  | .error m => .exn m fs
  | .ok fs1 =>
    match fsGet fs1 CONFIG_PATH with
    | none => .exn ("No such file or directory: " ++ CONFIG_PATH) fs1
    | some content =>
      match generate_config_content content loc scenarios with
      | .error m => .exn m fs1
      | .ok new_content =>
        if ¬ parse_ok new_content then
          .ret (false, some "Generated config has invalid Python syntax") fs1
        else
          match fault with
          | .atTempWrite m => .exn m fs1
          | _ =>
            let fs2 := fsSet fs1 TEMP_PATH new_content
            match fault, fsGet fs2 TEMP_PATH with
            | .atSelfCheck m, _ =>
              .ret (false, some ("Failed to validate temp config: " ++ m))
                (fsRemovePath fs2 TEMP_PATH)
            | _, none =>
              .ret (false, some "Failed to validate temp config: read failed")
                (fsRemovePath fs2 TEMP_PATH)
            | _, some temp_content =>
              if ¬ parse_ok temp_content then
                .ret (false, some "Failed to validate temp config: invalid syntax")
                  (fsRemovePath fs2 TEMP_PATH)
              else
                match fault with
                | .atReplace m => .exn m fs2
                | _ =>
                  .ret (true, some ("Scenarios saved successfully" ++
                      (if create_bk then " (backup: " ++ backup_path timestamp ++ ")"
                        else "")))
                    (fsSet (fsRemovePath fs2 TEMP_PATH) CONFIG_PATH new_content)

/-- ScenarioManager.save_scenarios: validate, then run the try body and
map any exception to a (False, message) result. -/
def save_scenarios (fs : FS) (loc : Option (Nat × Nat)) (timestamp : String)
    (parse_ok : String → Bool) (fault : SaveFault)
    (scenarios : List (String × List (String × String))) (create_bk : Bool) :
    (Bool × Option String) × FS :=
  let v := validate_all_scenarios (collToPy scenarios)
  if v.1 = false then ((false, v.2), fs)
  else
    match save_try_body fs loc timestamp parse_ok fault scenarios create_bk with
    | .ret r fs2 => (r, fs2)
    | .exn m fs2 => ((false, some ("Failed to save scenarios: " ++ m)), fs2)

/-! ## Concrete fixtures used by the theorems -/

/-- A slot map holding exactly the five required slots, with the given
text in AI-1 and empty text elsewhere. -/
def slotsWith (v : String) : List (String × String) :=
  [("AI-1", v), ("AI-2", ""), ("AI-3", ""), ("AI-4", ""), ("AI-5", "")]

/-- A prompt text containing a run of five double quotes:
x, five double quotes, y. -/
def quoteRunVal : String := "x\"\"\"\"\"y"

/-- A valid collection whose AI-1 prompt is quoteRunVal. -/
def quoteRunColl : List (String × List (String × String)) := [("S", slotsWith quoteRunVal)]

/-- The value from the escaping-correctness property of the spec:
she said "\"\"\"" then left\ (with literal backslashes and quotes). -/
def specEscapeVal : String := "she said \"\\\"\\\"\\\"\" then left\\"

/-- A valid collection whose AI-1 prompt is specEscapeVal. -/
def specEscColl : List (String × List (String × String)) := [("S", slotsWith specEscapeVal)]

/-- The one-line host binding of the spec's concrete scenario, with the
given scenario name. -/
def debateLineWith (n : String) : String :=
  "SYSTEM_PROMPT_PAIRS = \x7b\"" ++ n ++
    "\": \x7b\"AI-1\": \"Argue for\", \"AI-2\": \"Argue against\", \"AI-3\": \"\", \"AI-4\": \"\", \"AI-5\": \"\"\x7d\x7d"

/-- A host document with one line before and one line after the one-line
SYSTEM_PROMPT_PAIRS binding. -/
def hostDoc : String := "# header\n" ++ debateLineWith "Debate" ++ "\nFOOTER = 1\n"

/-- The same host document with only the key literal Debate changed to
Duel: the document the claim says save produces. -/
def renamedDoc : String := "# header\n" ++ debateLineWith "Duel" ++ "\nFOOTER = 1\n"

/-- The Debate collection of the spec's concrete scenario. -/
def debateSlots : List (String × String) :=
  [("AI-1", "Argue for"), ("AI-2", "Argue against"), ("AI-3", ""), ("AI-4", ""), ("AI-5", "")]

/-- The collection after renaming Debate to Duel. -/
def duelColl : List (String × List (String × String)) := [("Duel", debateSlots)]

/-- The Debate collection itself. -/
def debateColl : List (String × List (String × String)) := [("Debate", debateSlots)]

/-- Join complete lines, each line followed by its newline. -/
def linesJoin (ls : List (List Char)) : List Char :=
  (ls.map (fun l => l ++ ['\n'])).flatten

set_option maxRecDepth 16000

/-- C1: the spec's concrete escaping example does round-trip unchanged,
but the universal round-trip fails on the code: the valid collection
whose AI-1 prompt is x followed by five double quotes and y is serialized
to text whose literal value has AI-1 equal to x, one double quote, y --
the long string closes early at the unescaped quote run and the leftover
text is read as implicitly concatenated string literals -- so serializing
and re-parsing does not return an equal collection.  The escaping comments
in the source (lines 248-260) show the intent is an exact round trip, so
this is a slip in the code. -/
theorem c1_roundtrip_fails_on_quote_run :
    (validate_all_scenarios (collToPy specEscColl)).1 = true ∧
    reload specEscColl = some specEscColl ∧
    (validate_all_scenarios (collToPy quoteRunColl)).1 = true ∧
    reload quoteRunColl = some [("S", slotsWith "x\"y")] ∧
    [("S", slotsWith "x\"y")] ≠ quoteRunColl := by decide

/-- C5: the validator checks its conditions in order with short-circuit:
an empty collection fails; duplicate names fail (and are reported before
any per-scenario problem); a scenario missing AI-3 fails with a message
naming the scenario and the slot; a name that is empty after trimming, a
name mixing both quote characters, and a non-string slot value each fail
(the name checks firing before the prompts type check). -/
theorem c5_validator_order_and_messages :
    validate_all_scenarios [] = (false, some "Must have at least one scenario") ∧
    validate_all_scenarios [("X", slotMapToPy (slotsWith "p")), ("X", slotMapToPy (slotsWith "q"))] =
      (false, some "Duplicate scenario names found") ∧
    validate_all_scenarios [("X", PyVal.int 0), ("X", PyVal.int 1)] =
      (false, some "Duplicate scenario names found") ∧
    validate_all_scenarios [("A", slotMapToPy (slotsWith "p")),
        ("B", PyVal.dict [("AI-1", .str ""), ("AI-2", .str ""), ("AI-4", .str ""), ("AI-5", .str "")])] =
      (false, some ("Scenario " ++ aposS ++ "B" ++ aposS ++ ": Missing required AI slots: AI-3")) ∧
    validate_all_scenarios [("   ", slotMapToPy (slotsWith "p"))] =
      (false, some ("Scenario " ++ aposS ++ "   " ++ aposS ++ ": Scenario name cannot be empty")) ∧
    validate_all_scenarios [("a\"" ++ aposS ++ "b", slotMapToPy (slotsWith "p"))] =
      (false, some ("Scenario " ++ aposS ++ "a\"" ++ aposS ++ "b" ++ aposS ++
        ": Scenario name cannot contain both single and double quotes")) ∧
    validate_all_scenarios [("N", PyVal.dict [("AI-1", .str ""), ("AI-2", .int 7),
        ("AI-3", .str ""), ("AI-4", .str ""), ("AI-5", .str "")])] =
      (false, some ("Scenario " ++ aposS ++ "N" ++ aposS ++
        ": Prompt for AI-2 must be a string, got int")) ∧
    validate_all_scenarios [("", PyVal.int 0)] =
      (false, some ("Scenario " ++ aposS ++ aposS ++ ": Scenario name cannot be empty")) := by
  decide

/-- C10: load performs no structural validation beyond the dictionary
check: a host document whose section value is a dictionary mapping a
scenario to a non-dictionary (an int) loads successfully and unchanged,
and validate_all_scenarios rejects exactly that loaded structure. -/
theorem c10_load_skips_validation :
    load_scenarios (some (.parsed [.assign "SYSTEM_PROMPT_PAIRS" (.ok (.dict [("S", .int 5)]))])) =
      .ok [("S", PyVal.int 5)] ∧
    validate_all_scenarios [("S", PyVal.int 5)] =
      (false, some ("Scenario " ++ aposS ++ "S" ++ aposS ++ ": Prompts must be a dictionary")) :=
  ⟨rfl, by decide⟩

/-- C4 counterexample: a slot map holding all five required slots plus the
extra id AI-6 is accepted by validation (returns (True, None)), refuting
the claim that extra ids are rejected as invalid. -/
theorem c4_counterexample_extra_slot_accepted :
    validate_all_scenarios (collToPy [("S", slotsWith "p" ++ [("AI-6", "extra")])]) =
      (true, none) := by decide

/-- C2 counterexample: in the spec's concrete scenario (a one-line
SYSTEM_PROMPT_PAIRS binding between a header line and a footer line),
renaming Debate to Duel and regenerating does not produce the document
whose only change is the key literal: the section is re-serialized in the
canonical multi-line form and the newline ending the assignment's last
line is consumed. -/
theorem c2_counterexample_not_byte_minimal :
    (generate_config_content hostDoc (some (2, 2)) duelColl).toOption ≠ some renamedDoc := by
  decide

/-- C7 counterexample: for the valid collection whose AI-1 prompt is x,
five double quotes, y, serializing, parsing, and serializing again is not
byte-identical to the first serialization (the parse corrupts the value,
so the second serialization differs). -/
theorem c7_counterexample_resave_differs :
    (validate_all_scenarios (collToPy quoteRunColl)).1 = true ∧
    (reload quoteRunColl).map new_dict_content ≠ some (new_dict_content quoteRunColl) := by
  decide

/-! ## Helper lemmas -/

/-- Key membership of the string-map embedding is key membership of the
underlying map. -/
theorem keyMem_map_str (k : String) (m : List (String × String)) :
    keyMem k (m.map (fun p => (p.1, PyVal.str p.2))) = m.any (fun p => p.1 == k) := by
  induction m with
  | nil => rfl
  | cons a t ih => simp [keyMem, List.any_cons] at ih ⊢; rw [ih]

/-- The value type check never fires on a string-map embedding. -/
theorem firstNonStr_map_str (m : List (String × String)) :
    firstNonStr (m.map (fun p => (p.1, PyVal.str p.2))) = none := by
  induction m with
  | nil => rfl
  | cons a t ih => simpa [firstNonStr] using ih

/-- Lookup ignores an appended entry with a different key. -/
theorem lookup_append_ne {β : Type} (q k : String) (v : β) (m : List (String × β))
    (h : q ≠ k) : List.lookup q (m ++ [(k, v)]) = List.lookup q m := by
  induction m with
  | nil => simp [List.lookup, beq_false_of_ne h]
  | cons a t ih =>
    cases a with
    | mk a1 a2 =>
      by_cases hqa : q = a1
      · subst hqa; simp [List.lookup]
      · simp [List.lookup, beq_false_of_ne hqa, ih]

/-- A scenario whose slot map is a string map covering every required
slot passes validate_scenario, whatever other entries the map holds. -/
theorem validate_scenario_strmap (name : String) (m : List (String × String))
    (h1 : ¬(name = "" ∨ pyStrip name = ""))
    (h2 : ¬(containsChar name '"' = true ∧ containsChar name aposC = true))
    (h3 : ∀ slot ∈ REQUIRED_SLOTS, m.any (fun p => p.1 == slot) = true) :
    validate_scenario name (slotMapToPy m) = (true, none) := by
  have hfilter :
      REQUIRED_SLOTS.filter
        (fun slot => ¬ keyMem slot (m.map (fun p => (p.1, PyVal.str p.2)))) = [] := by
    rw [List.filter_eq_nil_iff]
    intro slot hslot
    simp [keyMem_map_str, h3 slot hslot]
  simp only [validate_scenario, slotMapToPy, if_neg h1, if_neg h2]
  rw [hfilter]
  simp [firstNonStr_map_str]

/-- C4 (amended): a slot map holding every required slot plus an extra id
outside the closed set is accepted by validation, and the serializer emits
exactly the same section text with or without the extra entry: extra ids
are silently dropped, not rejected. -/
theorem c4_extra_ids_accepted_and_dropped (name : String) (m : List (String × String))
    (k v : String)
    (hname : pyStrip name ≠ "")
    (hquote : ¬(containsChar name '"' = true ∧ containsChar name aposC = true))
    (hreq : ∀ slot ∈ REQUIRED_SLOTS, m.any (fun p => p.1 == slot) = true)
    (hk : k ∉ REQUIRED_SLOTS) :
    validate_scenario name (slotMapToPy (m ++ [(k, v)])) = (true, none) ∧
    new_dict_content [(name, m ++ [(k, v)])] = new_dict_content [(name, m)] := by
  constructor
  · have h1 : ¬(name = "" ∨ pyStrip name = "") := by
      rintro (rfl | h)
      · exact hname rfl
      · exact hname h
    exact validate_scenario_strmap name (m ++ [(k, v)]) h1 hquote
      (fun slot hslot => by rw [List.any_append]; simp [hreq slot hslot])
  · have hline : ∀ slot ∈ REQUIRED_SLOTS, slotLine (m ++ [(k, v)]) slot = slotLine m slot := by
      intro slot hslot
      have hne : slot ≠ k := fun h => hk (h ▸ hslot)
      rw [slotLine, slotLine, lookup_append_ne slot k v m hne]
    have hblock : slotBlock (m ++ [(k, v)]) = slotBlock m := by
      unfold slotBlock
      congr 1
      exact List.map_congr_left (fun slot hslot => by rw [hline slot hslot])
    simp [new_dict_content, generate_dict_lines, sortScenarios, List.insertionSort,
      List.orderedInsert, blocksWithLast, scenarioBlock, hblock]

/-- C4 witness: the amended statement at the concrete slot map holding the
five required slots plus AI-6. -/
theorem c4_witness :
    validate_scenario "S" (slotMapToPy (slotsWith "p" ++ [("AI-6", "extra")])) = (true, none) ∧
    new_dict_content [("S", slotsWith "p" ++ [("AI-6", "extra")])] =
      new_dict_content [("S", slotsWith "p")] :=
  c4_extra_ids_accepted_and_dropped "S" (slotsWith "p") "AI-6" "extra"
    (by decide) (by decide) (by decide) (by decide)

/-- A prefix with no binding of the name does not affect the search. -/
theorem findBinding_append_none (name : String) (pre rest : List PyStmt)
    (h : ∀ s ∈ pre, isAssignTo name s = false) :
    findBinding name (pre ++ rest) = findBinding name rest := by
  induction pre with
  | nil => rfl
  | cons a t ih =>
    have ha := h a (List.mem_cons_self a t)
    have ht : ∀ s ∈ t, isAssignTo name s = false := fun s hs => h s (List.mem_cons_of_mem a hs)
    cases a with
    | assign n v =>
      have hn : (n == name) = false := by simpa [isAssignTo] using ha
      simp [findBinding, hn, ih ht]
    | other => simp [findBinding, ih ht]

/-- C6: when the section name is bound more than once, the loader
deterministically selects the first binding: the loaded result of a
document whose earlier statements never bind SYSTEM_PROMPT_PAIRS equals
the loaded result of the document holding only that first binding,
whatever bindings follow it. -/
theorem c6_first_binding_selected (pre post : List PyStmt) (v : LitOutcome)
    (h : ∀ s ∈ pre, isAssignTo "SYSTEM_PROMPT_PAIRS" s = false) :
    load_scenarios (some (.parsed (pre ++ PyStmt.assign "SYSTEM_PROMPT_PAIRS" v :: post))) =
      load_scenarios (some (.parsed [PyStmt.assign "SYSTEM_PROMPT_PAIRS" v])) := by
  have h1 : findBinding "SYSTEM_PROMPT_PAIRS"
      (pre ++ PyStmt.assign "SYSTEM_PROMPT_PAIRS" v :: post) = some v := by
    rw [findBinding_append_none _ _ _ h]
    simp [findBinding]
  have h2 : findBinding "SYSTEM_PROMPT_PAIRS" [PyStmt.assign "SYSTEM_PROMPT_PAIRS" v] = some v := by
    simp [findBinding]
  simp only [load_scenarios, h1, h2]

/-- C6 witness: a document with two bindings of the name (and unrelated
statements before the first) loads exactly like the document holding only
the first binding. -/
theorem c6_witness :
    load_scenarios (some (.parsed
        ([PyStmt.other, .assign "OTHER" (.ok (.int 1))] ++
          PyStmt.assign "SYSTEM_PROMPT_PAIRS" (.ok (.dict [("A", .str "p")])) ::
            [PyStmt.assign "SYSTEM_PROMPT_PAIRS" (.ok (.int 9))]))) =
      load_scenarios (some (.parsed
        [PyStmt.assign "SYSTEM_PROMPT_PAIRS" (.ok (.dict [("A", .str "p")]))])) :=
  c6_first_binding_selected [PyStmt.other, .assign "OTHER" (.ok (.int 1))]
    [PyStmt.assign "SYSTEM_PROMPT_PAIRS" (.ok (.int 9))] (.ok (.dict [("A", .str "p")]))
    (by decide)

/-- Appending text never changes the first character of a non-empty
prefix: used to tell the loader's error messages apart. -/
theorem head_append_c (e : String) :
    (("config.py has syntax errors: " ++ e)).data.head? = some 'c' := by
  rw [String.data_append]; rfl

/-- Same, for the malformed-value message prefix. -/
theorem head_append_f (e : String) :
    (("Failed to parse SYSTEM_PROMPT_PAIRS value: " ++ e)).data.head? = some 'F' := by
  rw [String.data_append]; rfl

/-- C8: load fails with a FileNotFoundError exactly when the host path
does not exist; a document with syntax errors, a binding whose value text
does not literal-eval, and a binding whose value is not a dictionary each
produce a ValueError with its own malformed-section message; a document
without the binding produces the section-not-found ValueError; and each
malformed-section message differs from the section-not-found message, so
the caller can tell the failure kinds apart. -/
theorem c8_load_error_taxonomy :
    (∀ file, (∃ m, load_scenarios file = .error (.fileNotFoundError m)) ↔ file = none) ∧
    (∀ e, load_scenarios (some (.syntaxError e)) =
      .error (.valueError ("config.py has syntax errors: " ++ e))) ∧
    (∀ stmts e, findBinding "SYSTEM_PROMPT_PAIRS" stmts = some (.fail e) →
      load_scenarios (some (.parsed stmts)) =
        .error (.valueError ("Failed to parse SYSTEM_PROMPT_PAIRS value: " ++ e))) ∧
    (∀ stmts v, findBinding "SYSTEM_PROMPT_PAIRS" stmts = some (.ok v) →
      (∀ entries, v ≠ .dict entries) →
      load_scenarios (some (.parsed stmts)) =
        .error (.valueError "SYSTEM_PROMPT_PAIRS is not a dictionary")) ∧
    (∀ stmts, findBinding "SYSTEM_PROMPT_PAIRS" stmts = none →
      load_scenarios (some (.parsed stmts)) =
        .error (.valueError "SYSTEM_PROMPT_PAIRS not found in config.py")) ∧
    (∀ e, "config.py has syntax errors: " ++ e ≠ "SYSTEM_PROMPT_PAIRS not found in config.py") ∧
    (∀ e, "Failed to parse SYSTEM_PROMPT_PAIRS value: " ++ e ≠
      "SYSTEM_PROMPT_PAIRS not found in config.py") ∧
    ("SYSTEM_PROMPT_PAIRS is not a dictionary" ≠ "SYSTEM_PROMPT_PAIRS not found in config.py") := by
  refine ⟨?_, ?_, ?_, ?_, ?_, ?_, ?_, ?_⟩
  · intro file
    constructor
    · rintro ⟨m, hm⟩
      cases file with
      | none => rfl
      | some d =>
        cases d with
        | syntaxError e => simp [load_scenarios] at hm
        | parsed stmts =>
          rcases hfb : findBinding "SYSTEM_PROMPT_PAIRS" stmts with _ | lit
          · simp [load_scenarios, hfb] at hm
          · cases lit with
            | fail e => simp [load_scenarios, hfb] at hm
            | ok v => cases v <;> simp [load_scenarios, hfb] at hm
    · rintro rfl
      exact ⟨CONFIG_PATH ++ " not found", rfl⟩
  · intro e; rfl
  · intro stmts e hfb; simp [load_scenarios, hfb]
  · intro stmts v hfb hv
    cases v with
    | dict entries => exact absurd rfl (hv entries)
    | str s => simp [load_scenarios, hfb]
    | int n => simp [load_scenarios, hfb]
  · intro stmts hfb; simp [load_scenarios, hfb]
  · intro e h
    have h1 := head_append_c e
    rw [h] at h1
    exact absurd h1 (by decide)
  · intro e h
    have h1 := head_append_f e
    rw [h] at h1
    exact absurd h1 (by decide)
  · decide

/-- C8 witness: the taxonomy applied to concrete documents, one per
failure kind. -/
theorem c8_witness :
    (∃ m, load_scenarios none = .error (.fileNotFoundError m)) ∧
    load_scenarios (some (.parsed [PyStmt.other])) =
      .error (.valueError "SYSTEM_PROMPT_PAIRS not found in config.py") ∧
    load_scenarios (some (.parsed [PyStmt.assign "SYSTEM_PROMPT_PAIRS" (.fail "bad token")])) =
      .error (.valueError ("Failed to parse SYSTEM_PROMPT_PAIRS value: " ++ "bad token")) ∧
    load_scenarios (some (.parsed [PyStmt.assign "SYSTEM_PROMPT_PAIRS" (.ok (.int 5))])) =
      .error (.valueError "SYSTEM_PROMPT_PAIRS is not a dictionary") := by
  refine ⟨?_, ?_, ?_, ?_⟩
  · exact (c8_load_error_taxonomy.1 (none : Option DocParse)).mpr rfl
  · exact c8_load_error_taxonomy.2.2.2.2.1 [PyStmt.other] rfl
  · exact c8_load_error_taxonomy.2.2.1 [PyStmt.assign "SYSTEM_PROMPT_PAIRS" (.fail "bad token")]
      "bad token" rfl
  · exact c8_load_error_taxonomy.2.2.2.1 [PyStmt.assign "SYSTEM_PROMPT_PAIRS" (.ok (.int 5))]
      (.int 5) rfl (by rintro entries ⟨⟩)

/-- Reading a freshly written path returns the written contents. -/
theorem fsGet_set_self (fs : FS) (p v : String) : fsGet (fsSet fs p v) p = some v := by
  simp [fsGet, fsSet, List.lookup]

/-- Lookup is unaffected by removing a different path. -/
theorem lookup_remove_ne (q p : String) (h : q ≠ p) (fs : FS) :
    List.lookup q (fsRemovePath fs p) = List.lookup q fs := by
  induction fs with
  | nil => rfl
  | cons a t ih =>
    cases a with
    | mk a1 a2 =>
      by_cases hap : a1 = p
      · subst hap
        have hq : (q == a1) = false := beq_false_of_ne h
        simp [fsRemovePath, List.filter_cons, List.lookup, hq] at ih ⊢
        exact ih
      · by_cases hqa : q = a1
        · subst hqa
          simp [fsRemovePath, List.filter_cons, List.lookup, bne_iff_ne.mpr hap]
        · simp [fsRemovePath, List.filter_cons, List.lookup, bne_iff_ne.mpr hap,
            beq_false_of_ne hqa] at ih ⊢
          exact ih

/-- Writing one path leaves every other path unchanged. -/
theorem fsGet_set_ne (fs : FS) (p v q : String) (h : q ≠ p) :
    fsGet (fsSet fs p v) q = fsGet fs q := by
  simp only [fsGet, fsSet, List.lookup, beq_false_of_ne h]
  exact lookup_remove_ne q p h fs

/-- A removed path no longer exists. -/
theorem fsGet_remove_self (fs : FS) (p : String) : fsGet (fsRemovePath fs p) p = none := by
  induction fs with
  | nil => rfl
  | cons a t ih =>
    cases a with
    | mk a1 a2 =>
      by_cases hap : a1 = p
      · subst hap
        simpa [fsRemovePath, List.filter_cons] using ih
      · have hpa : (p == a1) = false := beq_false_of_ne (fun hh => hap hh.symm)
        simp [fsGet, fsRemovePath, List.filter_cons, bne_iff_ne.mpr hap, List.lookup, hpa]
          at ih ⊢
        exact ih

/-- Removing one path leaves every other path unchanged. -/
theorem fsGet_remove_ne (fs : FS) (p q : String) (h : q ≠ p) :
    fsGet (fsRemovePath fs p) q = fsGet fs q :=
  lookup_remove_ne q p h fs

/-- The host path and the temp path differ. -/
theorem config_ne_temp : CONFIG_PATH ≠ TEMP_PATH := by decide

/-- A backup path never collides with the host path. -/
theorem backup_ne_config (ts : String) : backup_path ts ≠ CONFIG_PATH := by
  intro h
  have hl := congrArg (fun s => s.data.length) h
  simp only [backup_path, CONFIG_PATH, String.data_append, List.length_append,
    List.length_cons, List.length_nil] at hl
  omega

/-- A backup path never collides with the temp path. -/
theorem backup_ne_temp (ts : String) : backup_path ts ≠ TEMP_PATH := by
  intro h
  have hl := congrArg (fun s => s.data.length) h
  simp only [backup_path, TEMP_PATH, CONFIG_PATH, String.data_append, List.length_append,
    List.length_cons, List.length_nil] at hl
  omega

/-- C3: if the post-write self-check fails (an injected exception at the
temp reopen or its re-parse), save deletes the temp file, reports the
failure as a (False, message) result, and the host file still holds its
original bytes; and whenever save reports success, the host file holds the
regenerated content and the temp file is gone, the replacement being the
model's single atomic step. -/
theorem c3_selfcheck_failure_leaves_original (fs : FS) (loc : Option (Nat × Nat))
    (ts m c0 nc : String) (parse_ok : String → Bool)
    (scen : List (String × List (String × String))) (cb : Bool)
    (hv : (validate_all_scenarios (collToPy scen)).1 = true)
    (hc : fsGet fs CONFIG_PATH = some c0)
    (hg : generate_config_content c0 loc scen = .ok nc)
    (hp : parse_ok nc = true) :
    (save_scenarios fs loc ts parse_ok (.atSelfCheck m) scen cb).1 =
      (false, some ("Failed to validate temp config: " ++ m)) ∧
    fsGet (save_scenarios fs loc ts parse_ok (.atSelfCheck m) scen cb).2 CONFIG_PATH = some c0 ∧
    fsGet (save_scenarios fs loc ts parse_ok (.atSelfCheck m) scen cb).2 TEMP_PATH = none ∧
    ∀ fault, (save_scenarios fs loc ts parse_ok fault scen cb).1.1 = true →
      fsGet (save_scenarios fs loc ts parse_ok fault scen cb).2 CONFIG_PATH = some nc ∧
      fsGet (save_scenarios fs loc ts parse_ok fault scen cb).2 TEMP_PATH = none := by
  have hv' : ¬((validate_all_scenarios (collToPy scen)).1 = false) := by simp [hv]
  have hbc : ∀ v, fsGet (fsSet fs (backup_path ts) v) CONFIG_PATH = some c0 := by
    intro v
    rw [fsGet_set_ne fs (backup_path ts) v CONFIG_PATH (fun h => backup_ne_config ts h.symm)]
    exact hc
  have hcfgtmp : CONFIG_PATH ≠ TEMP_PATH := config_ne_temp
  have htmpcfg : TEMP_PATH ≠ CONFIG_PATH := fun h => hcfgtmp h.symm
  refine ⟨?_, ?_, ?_, ?_⟩
  · cases cb <;>
      simp [save_scenarios, save_try_body, create_backup, hv', hc, hg, hp, hbc,
        fsGet_set_self]
  · cases cb <;>
      simp [save_scenarios, save_try_body, create_backup, hv', hc, hg, hp, hbc,
        fsGet_set_self, fsGet_remove_ne _ _ _ hcfgtmp, fsGet_set_ne _ _ _ _ hcfgtmp]
  · cases cb <;>
      simp [save_scenarios, save_try_body, create_backup, hv', hc, hg, hp, hbc,
        fsGet_set_self, fsGet_remove_self]
  · intro fault
    cases fault <;> cases cb <;>
      simp [save_scenarios, save_try_body, create_backup, hv', hc, hg, hp, hbc,
        fsGet_set_self, fsGet_remove_self, fsGet_remove_ne _ _ _ hcfgtmp,
        fsGet_set_ne _ _ _ _ hcfgtmp, fsGet_set_ne _ _ _ _ htmpcfg]

/-- C3 witness: the self-check failure case at a concrete filesystem and
collection. -/
theorem c3_witness :
    (save_scenarios [(CONFIG_PATH, "A\n")] (some (1, 1)) "20250101-000000" (fun _ => true)
        (.atSelfCheck "io error") duelColl true).1 =
      (false, some ("Failed to validate temp config: " ++ "io error")) ∧
    fsGet (save_scenarios [(CONFIG_PATH, "A\n")] (some (1, 1)) "20250101-000000" (fun _ => true)
        (.atSelfCheck "io error") duelColl true).2 CONFIG_PATH = some "A\n" ∧
    fsGet (save_scenarios [(CONFIG_PATH, "A\n")] (some (1, 1)) "20250101-000000" (fun _ => true)
        (.atSelfCheck "io error") duelColl true).2 TEMP_PATH = none := by
  have h := c3_selfcheck_failure_leaves_original [(CONFIG_PATH, "A\n")] (some (1, 1))
    "20250101-000000" "io error" "A\n" (new_dict_content duelColl) (fun _ => true) duelColl true
    (by decide) (by decide) (by rfl) rfl
  exact ⟨h.1, h.2.1, h.2.2.1⟩

/-- A failing per-scenario loop always reports a message. -/
theorem firstInvalid_false_some :
    ∀ l : List (String × PyVal), (firstInvalid l).1 = false → (firstInvalid l).2.isSome = true := by
  intro l
  induction l with
  | nil => intro h; simp [firstInvalid] at h
  | cons a t ih =>
    cases a with
    | mk n p =>
      by_cases hr : (validate_scenario n p).1 = true
      · simpa [firstInvalid, hr] using ih
      · simp [firstInvalid, hr]

/-- A failing validate_all_scenarios always reports a message. -/
theorem validate_all_false_some (s : List (String × PyVal))
    (h : (validate_all_scenarios s).1 = false) :
    (validate_all_scenarios s).2.isSome = true := by
  by_cases he : s.isEmpty
  · simp [validate_all_scenarios, he]
  · by_cases hd : s.length = ((s.map (·.1)).dedup).length
    · have h2 : (firstInvalid s).1 = false := by
        simpa [validate_all_scenarios, he, hd] using h
      simpa [validate_all_scenarios, he, hd] using firstInvalid_false_some s h2
    · simp [validate_all_scenarios, he, hd]

/-- Every explicit return of the try body carries a message. -/
theorem save_try_body_ret_msg (fs : FS) (loc : Option (Nat × Nat)) (ts : String)
    (parse_ok : String → Bool) (fault : SaveFault)
    (scen : List (String × List (String × String))) (cb : Bool) (r : Bool × Option String)
    (fs2 : FS) (h : save_try_body fs loc ts parse_ok fault scen cb = .ret r fs2) :
    r.2.isSome = true := by
  unfold save_try_body at h
  dsimp only [] at h
  cases fault <;> (repeat' split at h) <;> (cases h <;> rfl)

/-- C9: save_scenarios is total at its boundary: when validation fails it
returns (False, the validation message) without touching the filesystem
(no backup and no temp file is created, the state is returned unchanged),
and every failing outcome -- validation failure, any injected exception at
any step, or a failed check -- is reported as a (False, some message)
result value rather than an exception. -/
theorem c9_save_total_and_validation_gate (fs : FS) (loc : Option (Nat × Nat)) (ts : String)
    (parse_ok : String → Bool) (fault : SaveFault)
    (scen : List (String × List (String × String))) (cb : Bool) :
    ((validate_all_scenarios (collToPy scen)).1 = false →
      save_scenarios fs loc ts parse_ok fault scen cb =
        ((false, (validate_all_scenarios (collToPy scen)).2), fs)) ∧
    ((save_scenarios fs loc ts parse_ok fault scen cb).1.1 = false →
      ((save_scenarios fs loc ts parse_ok fault scen cb).1.2).isSome = true) := by
  constructor
  · intro hv
    simp [save_scenarios, hv]
  · intro hfail
    by_cases hv : (validate_all_scenarios (collToPy scen)).1 = false
    · have : save_scenarios fs loc ts parse_ok fault scen cb =
          ((false, (validate_all_scenarios (collToPy scen)).2), fs) := by
        simp [save_scenarios, hv]
      rw [this]
      exact validate_all_false_some _ hv
    · rcases hbody : save_try_body fs loc ts parse_ok fault scen cb with ⟨r, fs2⟩ | ⟨m, fs2⟩
      · have : save_scenarios fs loc ts parse_ok fault scen cb = (r, fs2) := by
          simp [save_scenarios, hv, hbody]
        rw [this]
        exact save_try_body_ret_msg fs loc ts parse_ok fault scen cb r fs2 hbody
      · have : save_scenarios fs loc ts parse_ok fault scen cb =
            ((false, some ("Failed to save scenarios: " ++ m)), fs2) := by
          simp [save_scenarios, hv, hbody]
        rw [this]
        rfl

/-- C9 witness: an invalid (empty) collection makes save return the
validation message and the filesystem untouched. -/
theorem c9_witness :
    save_scenarios [] none "t" (fun _ => true) .noFault [] true =
      ((false, some "Must have at least one scenario"), ([] : FS)) := by
  have h := (c9_save_total_and_validation_gate [] none "t" (fun _ => true) .noFault [] true).1
    (by decide)
  exact h

/-- Totality of the code point lexicographic order. -/
theorem leL_total : ∀ a b : List Char, leL a b = true ∨ leL b a = true := by
  intro a
  induction a with
  | nil => intro b; left; rfl
  | cons x as ih =>
    intro b
    cases b with
    | nil => right; rfl
    | cons y bs =>
      rcases lt_trichotomy x y with hxy | hxy | hxy
      · left; simp [leL, hxy]
      · subst hxy
        rcases ih bs with h | h
        · left; simp [leL, h]
        · right; simp [leL, h]
      · right; simp [leL, hxy]

/-- Transitivity of the code point lexicographic order. -/
theorem leL_trans : ∀ a b c : List Char, leL a b = true → leL b c = true → leL a c = true := by
  intro a
  induction a with
  | nil => intro b c _ _; rfl
  | cons x as ih =>
    intro b c h1 h2
    cases b with
    | nil => simp [leL] at h1
    | cons y bs =>
      cases c with
      | nil => simp [leL] at h2
      | cons z cs =>
        by_cases hxy : x < y
        · by_cases hyz : y < z
          · simp [leL, lt_trans hxy hyz]
          · by_cases hzy : z < y
            · simp [leL, hyz, hzy] at h2
            · have hyzeq : y = z := le_antisymm (not_lt.mp hzy) (not_lt.mp hyz)
              subst hyzeq
              simp [leL, hxy]
        · by_cases hyx : y < x
          · simp [leL, hxy, hyx] at h1
          · have hxyeq : x = y := le_antisymm (not_lt.mp hyx) (not_lt.mp hxy)
            subst hxyeq
            simp [leL, hxy] at h1
            by_cases hxz : x < z
            · simp [leL, hxz]
            · by_cases hzx : z < x
              · simp [leL, hxz, hzx] at h2
              · have hxzeq : x = z := le_antisymm (not_lt.mp hzx) (not_lt.mp hxz)
                subst hxzeq
                simp [leL, hxz] at h2 ⊢
                exact ih bs cs h1 h2

/-- Antisymmetry of the code point lexicographic order. -/
theorem leL_antisymm : ∀ a b : List Char, leL a b = true → leL b a = true → a = b := by
  intro a
  induction a with
  | nil =>
    intro b h1 h2
    cases b with
    | nil => rfl
    | cons y bs => simp [leL] at h2
  | cons x as ih =>
    intro b h1 h2
    cases b with
    | nil => simp [leL] at h1
    | cons y bs =>
      by_cases hxy : x < y
      · simp [leL, hxy, asymm hxy] at h2
      · by_cases hyx : y < x
        · simp [leL, hxy, hyx] at h1
        · have hxyeq : x = y := le_antisymm (not_lt.mp hyx) (not_lt.mp hxy)
          subst hxyeq
          simp [leL, hxy] at h1 h2
          rw [ih bs h1 h2]

/-- Antisymmetry of the modelled Python string order. -/
theorem leS_antisymm (a b : String) (h1 : leS a b = true) (h2 : leS b a = true) : a = b :=
  String.ext (leL_antisymm a.data b.data h1 h2)

/-- Two sorted permutations of a collection with duplicate-free names are
equal: sorting by name is canonical. -/
theorem sorted_unique_keys :
    ∀ l1 l2 : List (String × List (String × String)), l1.Perm l2 →
      (l1.map Prod.fst).Nodup →
      l1.Sorted (fun a b => leS a.1 b.1 = true) →
      l2.Sorted (fun a b => leS a.1 b.1 = true) → l1 = l2 := by
  intro l1
  induction l1 with
  | nil =>
    intro l2 hp _ _ _
    exact hp.nil_eq
  | cons a t1 ih =>
    intro l2 hp hn hs1 hs2
    cases l2 with
    | nil => exact absurd hp.symm.nil_eq (by simp)
    | cons b t2 =>
      have hab : a = b := by
        have hamem : a ∈ b :: t2 := hp.mem_iff.mp (List.mem_cons_self a t1)
        rcases List.mem_cons.mp hamem with h | hat2
        · exact h
        · have hba : leS b.1 a.1 = true := (List.sorted_cons.mp hs2).1 a hat2
          have hbmem : b ∈ a :: t1 := hp.mem_iff.mpr (List.mem_cons_self b t2)
          rcases List.mem_cons.mp hbmem with h | hbt1
          · exact h.symm
          · have hab' : leS a.1 b.1 = true := (List.sorted_cons.mp hs1).1 b hbt1
            have hkey : a.1 = b.1 := leS_antisymm _ _ hab' hba
            have hnd := (List.nodup_cons.mp hn).1
            exact absurd (hkey ▸ List.mem_map_of_mem Prod.fst hbt1) hnd
      subst hab
      have hp' : t1.Perm t2 := hp.cons_inv
      exact congrArg (a :: ·)
        (ih t2 hp' (List.nodup_cons.mp hn).2 (List.sorted_cons.mp hs1).2
          (List.sorted_cons.mp hs2).2)

/-- C7 (amended): the serializer emits scenarios in canonical order: its
output is invariant under permutation of a duplicate-free input
collection; the emitted order is the sorted order (sortScenarios is
sorted lexicographically by name and is a permutation of the input); the
required slots are emitted in their fixed declared order AI-1 .. AI-5;
and re-saving after a parse is byte-identical for the concrete Debate
collection.  (By c7_counterexample_resave_differs this last point does
not extend to every valid collection.) -/
theorem c7_canonical_order_and_idempotence :
    (∀ l l' : List (String × List (String × String)), l.Perm l' →
      (l.map Prod.fst).Nodup → new_dict_content l = new_dict_content l') ∧
    (∀ l : List (String × List (String × String)),
      (sortScenarios l).Sorted (fun a b => leS a.1 b.1 = true) ∧ (sortScenarios l).Perm l) ∧
    (∀ prompts, slotBlock prompts =
      [slotLine prompts "AI-1", "        ", slotLine prompts "AI-2", "        ",
       slotLine prompts "AI-3", "        ", slotLine prompts "AI-4", "        ",
       slotLine prompts "AI-5"]) ∧
    (reload debateColl).map new_dict_content = some (new_dict_content debateColl) := by
  haveI htot : IsTotal (String × List (String × String)) (fun a b => leS a.1 b.1 = true) :=
    ⟨fun a b => leL_total a.1.data b.1.data⟩
  haveI htrans : IsTrans (String × List (String × String)) (fun a b => leS a.1 b.1 = true) :=
    ⟨fun a b c h1 h2 => leL_trans a.1.data b.1.data c.1.data h1 h2⟩
  refine ⟨?_, ?_, ?_, ?_⟩
  · intro l l' hperm hnodup
    have hsort : sortScenarios l = sortScenarios l' := by
      apply sorted_unique_keys
      · exact (List.perm_insertionSort _ l).trans
          (hperm.trans (List.perm_insertionSort _ l').symm)
      · exact ((List.perm_insertionSort _ l).map Prod.fst).nodup_iff.mpr hnodup
      · exact List.sorted_insertionSort _ l
      · exact List.sorted_insertionSort _ l'
    unfold new_dict_content generate_dict_lines
    rw [hsort]
  · intro l
    exact ⟨List.sorted_insertionSort _ l, List.perm_insertionSort _ l⟩
  · intro prompts; rfl
  · decide

/-- C7 witness: permutation invariance at a concrete two-scenario
collection given in the two insertion orders. -/
theorem c7_witness :
    new_dict_content [("B", slotsWith "b"), ("A", slotsWith "a")] =
      new_dict_content [("A", slotsWith "a"), ("B", slotsWith "b")] :=
  c7_canonical_order_and_idempotence.1
    [("B", slotsWith "b"), ("A", slotsWith "a")]
    [("A", slotsWith "a"), ("B", slotsWith "b")]
    (by decide) (by decide)

/-- Splitting peels one complete newline-terminated line. -/
theorem splitNL_line (l r : List Char) (h : '\n' ∉ l) :
    splitNL (l ++ '\n' :: r) = l :: splitNL r := by
  induction l with
  | nil => simp [splitNL]
  | cons c t ih =>
    have hc : ¬(c = '\n') := fun hh => h (hh ▸ List.mem_cons_self c t)
    have ht : '\n' ∉ t := fun hm => h (List.mem_cons_of_mem c hm)
    simp [splitNL, hc, ih ht]

/-- Splitting a block of complete lines recovers exactly those lines. -/
theorem splitNL_linesJoin (ls : List (List Char)) (rest : List Char)
    (h : ∀ l ∈ ls, '\n' ∉ l) :
    splitNL (linesJoin ls ++ rest) = ls ++ splitNL rest := by
  induction ls with
  | nil => simp [linesJoin]
  | cons l t ih =>
    have hl := h l (List.mem_cons_self l t)
    have ht : ∀ x ∈ t, '\n' ∉ x := fun x hx => h x (List.mem_cons_of_mem l hx)
    have hshape : linesJoin (l :: t) ++ rest = l ++ ('\n' :: (linesJoin t ++ rest)) := by
      simp [linesJoin]
    rw [hshape, splitNL_line l _ hl, ih ht]
    rfl

/-- The position sum over a block of lines is the block's length. -/
theorem sumLens_linesJoin (ls : List (List Char)) : sumLens ls = (linesJoin ls).length := by
  induction ls with
  | nil => rfl
  | cons l t ih =>
    simp only [sumLens, linesJoin, List.map_cons, List.sum_cons, List.flatten_cons,
      List.length_append, List.length_cons, List.length_nil] at ih ⊢
    omega

/-- The position sum distributes over appended line blocks. -/
theorem sumLens_append (a b : List (List Char)) : sumLens (a ++ b) = sumLens a + sumLens b := by
  simp [sumLens]

/-- C2 (amended): generate_config_content replaces exactly the whole-line
span of the located assignment -- from the start of its first line through
the end of its last line, including that line's trailing newline -- with
the canonical serialized section.  Every character before that line span
and every character after it is preserved unchanged. -/
theorem c2_frame_line_splice (content : String) (preLines assignLines : List (List Char))
    (post : List Char) (scen : List (String × List (String × String)))
    (hpre : ∀ l ∈ preLines, '\n' ∉ l)
    (hassign : ∀ l ∈ assignLines, '\n' ∉ l)
    (hcontent : content.data = linesJoin preLines ++ (linesJoin assignLines ++ post)) :
    generate_config_content content
        (some (preLines.length + 1, preLines.length + assignLines.length)) scen =
      .ok (String.mk (linesJoin preLines ++ ((new_dict_content scen).data ++ post))) := by
  unfold generate_config_content
  dsimp only []
  rw [hcontent]
  have hsplit : splitNL (linesJoin preLines ++ (linesJoin assignLines ++ post)) =
      preLines ++ (assignLines ++ splitNL post) := by
    rw [splitNL_linesJoin preLines _ hpre, splitNL_linesJoin assignLines post hassign]
  rw [hsplit]
  have htake1 : (preLines ++ (assignLines ++ splitNL post)).take (preLines.length + 1 - 1) =
      preLines := by
    rw [Nat.add_sub_cancel]
    exact List.take_left preLines (assignLines ++ splitNL post)
  have htake2 : (preLines ++ (assignLines ++ splitNL post)).take
      (preLines.length + assignLines.length) = preLines ++ assignLines := by
    rw [← List.append_assoc, ← List.length_append]
    exact List.take_left _ _
  rw [htake1, htake2]
  rw [sumLens_linesJoin preLines, sumLens_append, sumLens_linesJoin preLines,
    sumLens_linesJoin assignLines]
  have hbefore : (linesJoin preLines ++ (linesJoin assignLines ++ post)).take
      (linesJoin preLines).length = linesJoin preLines := List.take_left _ _
  have hafter : (linesJoin preLines ++ (linesJoin assignLines ++ post)).drop
      ((linesJoin preLines).length + (linesJoin assignLines).length) = post := by
    rw [← List.length_append, ← List.append_assoc]
    exact List.drop_left _ _
  rw [hbefore, hafter, List.append_assoc]

/-- C2 witness: the frame theorem at the spec's concrete host document:
the header line and the footer line are preserved and the one-line
binding's whole line (newline included) is replaced by the canonical
section. -/
theorem c2_frame_witness :
    generate_config_content hostDoc (some (2, 2)) duelColl =
      .ok (String.mk ("# header\n".data ++
        ((new_dict_content duelColl).data ++ "FOOTER = 1\n".data))) := by
  have h := c2_frame_line_splice hostDoc ["# header".data] [(debateLineWith "Debate").data]
    ("FOOTER = 1\n".data) duelColl (by decide) (by decide) (by decide)
  exact h
